import Mathlib

/-!
Verification of the finance-tracker chat server core against its
natural-language specification.

Shallow embedding conventions:
* Python strings are Lean `String`s (ASCII inputs; `str.lower()` is
  `pyLower`, the Python substring test `a in b` is `containsSub`).
* Python floats are embedded as `ℚ` (all weights and thresholds in the
  source are short decimal literals, and every claim concerns exact
  comparisons of those values).
* `datetime` values are abstracted to integers counting days; `timedelta`
  subtraction becomes integer subtraction.
* Fallible collaborators (database services, LLM providers) are
  `Except String α` outcomes; `try/except` blocks become `match`es.
* Dictionaries with a fixed key set become structures; dictionaries
  keyed by intent names become association lists in insertion order
  (Python 3.7+ dicts iterate in insertion order).
-/

/-! ## String helpers (Python `str.lower` and the `in` operator) -/

/-- Python `str.lower()` for ASCII text: lowercase each character. -/
def pyLower (s : String) : String := String.mk (s.data.map Char.toLower)

/-- Python `needle in hay` substring test on character lists. -/
def containsSub (needle : List Char) : List Char → Bool
  | [] => needle.isPrefixOf []
  | c :: t => needle.isPrefixOf (c :: t) || containsSub needle t

/-- `phrase in q` for strings (`q` is expected to be already lowercased
by the caller, as in the source). -/
def phraseIn (phrase q : String) : Bool := containsSub phrase.data q.data

/-! ## Intent classifier (`app/ai/ml/intent_classifier.py`) -/

namespace IntentClassifier

/-- `IntentResult` dataclass (`intent_classifier.py:15-31`); the
human-readable `reasoning` log string is omitted (no claim mentions it). -/
structure IntentResult where
  primary_intent : String
  confidence : ℚ
  secondary_intents : List (String × ℚ)
  keywords : List String
deriving DecidableEq, Repr

/-- The fetch plan dict `{"needs_transactions": _, "needs_goals": _,
"needs_reminders": _}` returned by `get_intents_for_fetch`. -/
structure FetchPlan where
  needs_transactions : Bool
  needs_goals : Bool
  needs_reminders : Bool
deriving DecidableEq, Repr

/-- `FETCH_ALL_PHRASES` (`intent_classifier.py:45-58`). -/
def FETCH_ALL_PHRASES : List String :=
  [ "analyse", "analyze", "analysis",
    "performance", "overview", "summary", "report",
    "how am i doing", "how i am doing",
    "how are my finances", "financial health",
    "financial status", "financial situation",
    "give me a summary", "full picture",
    "overall", "everything", "all my",
    "am i doing well", "am i doing good",
    "how is my", "review my",
    "check my finances", "check my financial",
    "assess", "assessment", "evaluate", "evaluation",
    "dashboard", "snapshot" ]

/-- `MULTI_INTENT_PHRASES` (`intent_classifier.py:62-83`), in insertion
order (Python dict iteration order). -/
def MULTI_INTENT_PHRASES : List (String × List String) :=
  [ ("am i saving enough",     ["transactions", "goals"]),
    ("saving enough",          ["transactions", "goals"]),
    ("what should i focus on", ["transactions", "goals"]),
    ("where should i focus",   ["transactions", "goals"]),
    ("am i on track",          ["transactions", "goals"]),
    ("how close am i",         ["transactions", "goals"]),
    ("can i afford",           ["transactions", "goals"]),
    ("afford",                 ["transactions", "goals"]),
    ("reach my goal",          ["transactions", "goals"]),
    ("meet my goal",           ["transactions", "goals"]),
    ("achieve my goal",        ["transactions", "goals"]),
    ("budget vs",              ["transactions", "goals"]),
    ("upcoming goals",         ["goals", "reminders"]),
    ("goal deadlines",         ["goals", "reminders"]),
    ("pending bills",          ["transactions", "reminders"]),
    ("bills and expenses",     ["transactions", "reminders"]),
    ("overdue payments",       ["transactions", "reminders"]) ]

/-- `TIME_PATTERNS` (`intent_classifier.py:86-99`): phrase ↦ day offset,
`none` standing for Python `None` ("all time"). -/
def TIME_PATTERNS : List (String × Option ℤ) :=
  [ ("today", some 0),
    ("yesterday", some 1),
    ("this week", some 7),
    ("last week", some 14),
    ("this month", some 30),
    ("last month", some 60),
    ("this quarter", some 90),
    ("last quarter", some 180),
    ("this year", some 365),
    ("last year", some 730),
    ("all", none),
    ("forever", none) ]

/-- `INTENT_KEYWORDS["transactions"]` (`intent_classifier.py:105-150`). -/
def TRANSACTIONS_KEYWORDS : List (String × ℚ) :=
  [ ("how much did i spend", 3.0),
    ("transaction history", 3.0),
    ("account balance", 3.0),
    ("payment history", 3.0),
    ("show me my expenses", 3.0),
    ("recent transactions", 3.0),
    ("total spending", 2.5),
    ("total expenses", 2.5),
    ("how much have i", 2.5),
    ("what did i spend", 2.5),
    ("money spent", 2.0),
    ("cash flow", 2.0),
    ("transaction", 1.5),
    ("transactions", 1.5),
    ("expense", 1.5),
    ("expenses", 1.5),
    ("spending", 1.5),
    ("spent", 1.2),
    ("income", 1.5),
    ("payment", 1.2),
    ("payments", 1.2),
    ("receipt", 1.2),
    ("receipts", 1.2),
    ("charge", 1.0),
    ("charges", 1.0),
    ("debit", 1.2),
    ("credit", 1.0),
    ("transfer", 1.2),
    ("balance", 1.2),
    ("purchase", 1.2),
    ("purchases", 1.2),
    ("bought", 1.0),
    ("buy", 0.8),
    ("paid", 1.0),
    ("cost", 0.8),
    ("cash", 0.8),
    ("card", 0.8),
    ("total", 0.8),
    ("sum", 0.8),
    ("account", 0.8),
    ("history", 0.8),
    ("money", 0.7) ]

/-- `INTENT_KEYWORDS["goals"]` (`intent_classifier.py:151-185`). -/
def GOALS_KEYWORDS : List (String × ℚ) :=
  [ ("savings goal", 3.0),
    ("financial goal", 3.0),
    ("saving for", 2.5),
    ("how much have i saved", 2.5),
    ("goal progress", 2.5),
    ("savings target", 2.5),
    ("budget plan", 2.0),
    ("financial plan", 2.0),
    ("am i on track", 2.0),
    ("how close am i", 2.0),
    ("reach my goal", 2.0),
    ("goal", 1.5),
    ("goals", 1.5),
    ("target", 1.2),
    ("save", 1.2),
    ("saving", 1.2),
    ("savings", 1.2),
    ("milestone", 1.5),
    ("objective", 1.2),
    ("achievement", 1.0),
    ("accumulate", 1.2),
    ("fund", 1.0),
    ("budget", 1.2),
    ("plan", 0.8),
    ("progress", 1.0),
    ("track", 0.8),
    ("invest", 0.8),
    ("investment", 0.8),
    ("retire", 1.0),
    ("retirement", 1.2),
    ("emergency fund", 2.0) ]

/-- `INTENT_KEYWORDS["reminders"]` (`intent_classifier.py:186-217`). -/
def REMINDERS_KEYWORDS : List (String × ℚ) :=
  [ ("set a reminder", 3.0),
    ("set reminder", 3.0),
    ("remind me", 3.0),
    ("create an alert", 3.0),
    ("send me a notification", 3.0),
    ("payment due", 2.5),
    ("bill due", 2.5),
    ("upcoming payment", 2.5),
    ("payment reminder", 3.0),
    ("due date", 2.0),
    ("don\x27t let me forget", 2.0),
    ("notify me", 2.0),
    ("alert me", 2.0),
    ("reminder", 2.0),
    ("reminders", 2.0),
    ("remind", 1.5),
    ("alert", 1.2),
    ("alerts", 1.2),
    ("notification", 1.5),
    ("notifications", 1.5),
    ("notify", 1.2),
    ("schedule", 1.0),
    ("alarm", 1.2),
    ("upcoming", 1.0),
    ("due", 0.8),
    ("overdue", 1.2),
    ("recurring", 1.0),
    ("subscription", 1.0) ]

/-- Score accumulation for one intent (`intent_classifier.py:295-298`):
sum of weights of the keywords occurring in the lowered query. -/
def intentScore (ql : List Char) (kws : List (String × ℚ)) : ℚ :=
  kws.foldl (fun acc kw => if containsSub kw.1.data ql then acc + kw.2 else acc) 0

/-- `intent_scores["transactions"]` for a query. -/
def scoreT (q : String) : ℚ := intentScore (pyLower q).data TRANSACTIONS_KEYWORDS

/-- `intent_scores["goals"]` for a query. -/
def scoreG (q : String) : ℚ := intentScore (pyLower q).data GOALS_KEYWORDS

/-- `intent_scores["reminders"]` for a query. -/
def scoreR (q : String) : ℚ := intentScore (pyLower q).data REMINDERS_KEYWORDS

/-- `total_score = sum(intent_scores.values())` (`intent_classifier.py:302`). -/
def totalScore (q : String) : ℚ := scoreT q + scoreG q + scoreR q

/-- `max_score = max(intent_scores.values())` (`intent_classifier.py:303`). -/
def maxScore (q : String) : ℚ := max (scoreT q) (max (scoreG q) (scoreR q))

/-- Normalized score of the transactions intent (`intent_classifier.py:316-318`). -/
def normT (q : String) : ℚ := scoreT q / totalScore q

/-- Normalized score of the goals intent. -/
def normG (q : String) : ℚ := scoreG q / totalScore q

/-- Normalized score of the reminders intent. -/
def normR (q : String) : ℚ := scoreR q / totalScore q

/-- Python `max(normalized, key=normalized.get)` over the dict with keys
in insertion order transactions, goals, reminders: iterate and replace
the current best only on a strictly greater value, so the earliest key
wins ties. -/
def argmaxIntent (t g r : ℚ) : String :=
  if g > t then (if r > g then "reminders" else "goals")
  else (if r > t then "reminders" else "transactions")

/-- Python `round(x, 4)`: round `x * 10^4` half-to-even, divide back. -/
def roundHalfEven (x : ℚ) : ℤ :=
  let f := ⌊x⌋
  let frac := x - f
  if frac < 1/2 then f
  else if frac > 1/2 then f + 1
  else if f % 2 = 0 then f else f + 1

/-- `round(x, 4)` as used at `intent_classifier.py:325,341,357`. -/
def round4 (x : ℚ) : ℚ := (roundHalfEven (x * 10000) : ℚ) / 10000

/-- The primary intent selected at `intent_classifier.py:320`. -/
def primaryOf (q : String) : String := argmaxIntent (normT q) (normG q) (normR q)

/-- `confidence = normalized[primary_intent]` (`intent_classifier.py:321`). -/
def confOf (q : String) : ℚ :=
  if primaryOf q = "transactions" then normT q
  else if primaryOf q = "goals" then normG q
  else normR q

/-- Stable insert of `x` after all entries with a value ≥ its value. -/
def insertDesc (acc : List (String × ℚ)) (x : String × ℚ) : List (String × ℚ) :=
  match acc with
  | [] => [x]
  | y :: ys => if y.2 ≥ x.2 then y :: insertDesc ys x else x :: y :: ys

/-- Python `sorted(pairs, key=value, reverse=True)`: stable descending
sort by the numeric component. -/
def sortDesc (l : List (String × ℚ)) : List (String × ℚ) := l.foldl insertDesc []

/-- One pass of `found_keywords` collection over one intent's keyword
list (`intent_classifier.py:296-300`): append each matching keyword not
yet recorded. -/
def collectKeywords (ql : List Char) (kws : List (String × ℚ))
    (acc : List String) : List String :=
  kws.foldl
    (fun a kw =>
      if containsSub kw.1.data ql && !(a.contains kw.1) then a ++ [kw.1] else a)
    acc

/-- `found_keywords` accumulated over the three intents in dict order. -/
def foundKeywords (q : String) : List String :=
  collectKeywords (pyLower q).data REMINDERS_KEYWORDS
    (collectKeywords (pyLower q).data GOALS_KEYWORDS
      (collectKeywords (pyLower q).data TRANSACTIONS_KEYWORDS []))

/-- `secondary_intents` (`intent_classifier.py:324-329`): the
non-primary intents with positive normalized score, values rounded to
4 places, sorted by value descending (Python `sorted` is stable). -/
def secondaryOf (query : String) : List (String × ℚ) :=
  sortDesc
    ((([("transactions", normT query), ("goals", normG query),
        ("reminders", normR query)]).filter
      (fun p => p.1 != primaryOf query && decide (p.2 > 0))).map
      (fun p => (p.1, round4 p.2)))

/-- `IntentClassifier.classify` (`intent_classifier.py:274-360`). -/
def classify (query : String) : IntentResult :=
  if totalScore query = 0 ∨ maxScore query = 0 then
    { primary_intent := "general", confidence := 1/2,
      secondary_intents := [], keywords := [] }
  else if confOf query < 2/5 then
    { primary_intent := "general", confidence := round4 (confOf query),
      secondary_intents := secondaryOf query, keywords := foundKeywords query }
  else
    { primary_intent := primaryOf query, confidence := round4 (confOf query),
      secondary_intents := secondaryOf query, keywords := foundKeywords query }

/-- Python `result[f"needs_{intent}"] = True` for the three flag keys
actually present in the source data (every intent value occurring in
`MULTI_INTENT_PHRASES` and every classifier output is one of them). -/
def setFlag (p : FetchPlan) (intent : String) : FetchPlan :=
  if intent = "transactions" then { p with needs_transactions := true }
  else if intent = "goals" then { p with needs_goals := true }
  else if intent = "reminders" then { p with needs_reminders := true }
  else p

/-- `IntentClassifier.get_intents_for_fetch` (`intent_classifier.py:227-272`);
the query-lowering local `q` and the classification result `ir` of the
source are inlined. -/
def get_intents_for_fetch (query : String) : FetchPlan :=
  if FETCH_ALL_PHRASES.any (fun p => containsSub p.data (pyLower query).data) then
    ⟨true, true, true⟩
  else
    match MULTI_INTENT_PHRASES.find? (fun p => containsSub p.1.data (pyLower query).data) with
    | some pr => pr.2.foldl setFlag ⟨false, false, false⟩
    | none =>
      if (classify query).primary_intent = "general" then ⟨true, true, true⟩
      else
        (classify query).secondary_intents.foldl
          (fun acc p =>
            if decide (p.2 > 1/4)
                && decide (p.1 ∈ (["transactions", "goals", "reminders"] : List String))
            then setFlag acc p.1 else acc)
          (setFlag ⟨false, false, false⟩ (classify query).primary_intent)

/-- `IntentClassifier.extract_time_range` (`intent_classifier.py:362-382`),
with `datetime.now()` abstracted to an integer day count `now`; the
first component is the start (`none` = unbounded) and the second the end. -/
def extract_time_range (now : ℤ) (query : String) : Option ℤ × ℤ :=
  match TIME_PATTERNS.find? (fun p => containsSub p.1.data (pyLower query).data) with
  | some (_, some d) => (some (now - d), now)
  | some (_, none) => (none, now)
  | none => (some (now - 30), now)

/-- `p.needs_transactions or p.needs_goals or p.needs_reminders`:
the plan activates at least one category. -/
def anyFlag (p : FetchPlan) : Bool :=
  p.needs_transactions || p.needs_goals || p.needs_reminders

end IntentClassifier

/-! ## Data fetcher (`app/ai/tools/data_fetcher.py`) -/

namespace DataFetcher

/-- The `"data"` dict of a single-intent fetch result: empty (`{}`),
populated from a successful service call, or the error dict a private
helper returns when its own `try/except` catches a service failure
(`data_fetcher.py:179-181,195-197,218-224,255-257`); the domain payload
is abstracted to a string since no claim inspects its fields. -/
inductive DataDict where
  | empty
  | content (payload : String)
  | withError (msg : String)
deriving DecidableEq, Repr

/-- Result dict of `fetch_intent_data` (`data_fetcher.py:57-62`):
keys `intent`, `user_id`, `timestamp` (abstracted to a number), `data`
and the optional outer `error` key set at `data_fetcher.py:85`. -/
structure IntentFetchOutcome where
  intent : String
  user_id : String
  timestamp : ℕ
  data : DataDict
  error : Option String
deriving DecidableEq, Repr

/-- The four collaborator service calls a `DataFetcher` can make, as
outcomes: `.ok` is the fetched payload, `.error` a raised exception's
message.  The application of user id, time range and query to the
services is abstracted away since each claim fixes them. -/
structure Services where
  transactionsCall : Except String String
  goalsCall : Except String String
  remindersCall : Except String String
  generalCall : Except String String

/-- The inner `try/except` shared by the private helpers
`_fetch_transactions`, `_fetch_goals`, `_fetch_reminders`,
`_fetch_general`: a successful call yields a populated data dict, a
raised exception is caught and becomes the helper's own error dict; the
helper itself never raises (its whole body is inside the `try`). -/
def helperCatch : Except String String → DataDict
  | .ok d => .content d
  | .error e => .withError e

/-- `DataFetcher.fetch_intent_data` (`data_fetcher.py:38-87`): dispatch
on the intent via the `fetchers` dict; unknown intents return the base
result with empty data (`data_fetcher.py:76-78`).  The outer `except`
at line 83 is unreachable for service failures because every helper
catches internally, so the `error` key stays `none` here. -/
def fetch_intent_data (s : Services) (user_id intent : String) (now : ℕ) :
    IntentFetchOutcome :=
  let base : IntentFetchOutcome := ⟨intent, user_id, now, .empty, none⟩
  if intent = "transactions" then { base with data := helperCatch s.transactionsCall }
  else if intent = "goals" then { base with data := helperCatch s.goalsCall }
  else if intent = "reminders" then { base with data := helperCatch s.remindersCall }
  else if intent = "general" then { base with data := helperCatch s.generalCall }
  else base

/-- One task passed to `asyncio.gather(*tasks, return_exceptions=True)`:
an exception escaping the task would surface as `.error`; since
`fetch_intent_data` catches everything, the task always completes. -/
def fetch_intent_task (s : Services) (uid intent : String) (now : ℕ) :
    Except String IntentFetchOutcome :=
  .ok (fetch_intent_data s uid intent now)

/-- One entry of the `intents_data` dict of `fetch_multi_intent_data`:
either the wrapped exception dict `{"error": str(result)}`
(`data_fetcher.py:116-118`) or the task's result dict. -/
inductive IntentEntry where
  | errEntry (msg : String)
  | result (r : IntentFetchOutcome)
deriving DecidableEq, Repr

/-- Result dict of `fetch_multi_intent_data` (`data_fetcher.py:122-127`);
`intents_data` is kept as an association list in request order (the
Python dict collapses duplicate intents, whose values coincide anyway
because the task function is deterministic). -/
structure MultiFetchOutcome where
  query : String
  user_id : String
  timestamp : ℕ
  intents_data : List (String × IntentEntry)
deriving DecidableEq, Repr

/-- `DataFetcher.fetch_multi_intent_data` (`data_fetcher.py:89-127`). -/
def fetch_multi_intent_data (s : Services) (uid : String)
    (intents : List String) (query : String) (now : ℕ) : MultiFetchOutcome :=
  let entries := intents.map (fun intent =>
    (intent,
      match fetch_intent_task s uid intent now with
      | .error e => IntentEntry.errEntry e
      | .ok r => IntentEntry.result r))
  ⟨query, uid, now, entries⟩

end DataFetcher

/-! ## Chat memory (`app/ai/memory/chat_memory.py`) -/

namespace ChatMemory

/-- A conversation turn: a `HumanMessage` or `AIMessage` with content. -/
structure Message where
  role : String
  content : String
deriving DecidableEq, Repr

/-- Python slice `lst[-n:]`.  For `n = 0` it is `lst[0:]`, the whole
list — not the empty list. -/
def sliceLastPy {α : Type} (n : ℕ) (l : List α) : List α :=
  if n = 0 then l else l.drop (l.length - n)

/-- The in-memory effect of `ChatMemory.add_message`
(`chat_memory.py:37-72`): append, then trim with `lst[-max_messages:]`
when the length exceeds `max_messages`. -/
def add_message (max_messages : ℕ) (msgs : List Message) (m : Message) :
    List Message :=
  let appended := msgs ++ [m]
  if appended.length > max_messages then sliceLastPy max_messages appended
  else appended

/-- Appending a sequence of turns to a fresh (empty) session. -/
def addAll (max_messages : ℕ) (ms : List Message) : List Message :=
  ms.foldl (add_message max_messages) []

end ChatMemory

/-! ## Orchestrator LLM fallback (`app/ai/orchestrator.py`) -/

namespace Orchestrator

/-- The observable outcome of `process_authenticated_query`
(`orchestrator.py:307-405`): the returned dict's `status` and
`provider`/`response` keys (absent on the error path, hence `Option`),
plus the conversation history after the call. -/
structure QueryOutcome where
  status : String
  provider : Option String
  response : Option String
  histAfter : List ChatMemory.Message
deriving DecidableEq, Repr

/-- `AIOrchestrator.process_authenticated_query`, steps 4-7
(`orchestrator.py:333-405`): append the human turn to memory, invoke
the primary provider, on failure fall back once to Gemini when the
primary is not already Gemini, append the assistant turn only on
success; both providers failing is caught by the outer `except` and
becomes a `status = "error"` dict without `provider`/`response` keys.
Intent classification, data fetching and prompt assembly (steps 1-3, 6)
are omitted: they do not touch memory or the provider fields.  The two
provider invocations are passed in as outcomes; `cap` is the memory's
`max_messages` (50 in `get_user_memory`). -/
def process_authenticated_query (cap : ℕ) (hist : List ChatMemory.Message)
    (provider : String) (primaryInvoke geminiInvoke : Except String String)
    (query : String) : QueryOutcome :=
  match primaryInvoke with
  | .ok resp =>
      { status := "success", provider := some provider, response := some resp,
        histAfter := ChatMemory.add_message cap
          (ChatMemory.add_message cap hist ⟨"human", query⟩) ⟨"ai", resp⟩ }
  | .error _ =>
      if provider ≠ "gemini" then
        match geminiInvoke with
        | .ok resp =>
            { status := "success", provider := some "gemini",
              response := some resp,
              histAfter := ChatMemory.add_message cap
                (ChatMemory.add_message cap hist ⟨"human", query⟩) ⟨"ai", resp⟩ }
        | .error _ =>
            { status := "error", provider := none, response := none,
              histAfter := ChatMemory.add_message cap hist ⟨"human", query⟩ }
      else
        { status := "error", provider := none, response := none,
          histAfter := ChatMemory.add_message cap hist ⟨"human", query⟩ }

end Orchestrator

/-! ## PII masker (`app/ai/utils/pii_masker.py`)

A small backtracking matcher for the fragment of Python `re` the six
`PATTERNS` use: character classes, literals (case-sensitive or not),
concatenation, prioritized alternation, greedy option, exact repetition,
greedy bounded repetition of a character class, the word boundary `\b`,
and single-character negative lookbehind/lookahead.  `Re.run` returns
every way a pattern can consume a prefix of the input, highest
backtracking priority first, exactly mirroring the engine's order
(greedy quantifiers try longer matches first, alternation tries the
left branch first). -/

namespace PIIMasker

/-- Regex abstract syntax for the constructs used by `PATTERNS`. -/
inductive Re where
  | eps
  | cls (p : Char → Bool)
  | seq (a b : Re)
  | alt (a b : Re)
  | opt (a : Re)
  | clsRep (p : Char → Bool) (lo : ℕ) (hi : Option ℕ)
  | wordB
  | negLB (p : Char → Bool)
  | negLA (p : Char → Bool)

/-- `\w` for the ASCII texts at hand: letters, digits, underscore. -/
def isWordChar (c : Char) : Bool := c.isAlphanum || c == '_'

/-- All ways `r` can consume a prefix of `s`, as pairs of the new left
context (consumed text, reversed, most recent first — needed by `\b`
and lookbehind) and the remaining input, in backtracking priority
order. -/
def Re.run : Re → List Char → List Char → List (List Char × List Char)
  | .eps, left, s => [(left, s)]
  | .cls p, left, s =>
      match s with
      | [] => []
      | c :: rest => if p c then [(c :: left, rest)] else []
  | .seq a b, left, s =>
      (a.run left s).flatMap (fun pr => b.run pr.1 pr.2)
  | .alt a b, left, s => a.run left s ++ b.run left s
  | .opt a, left, s => a.run left s ++ [(left, s)]
  | .clsRep p lo hi, left, s =>
      let mx := (s.takeWhile p).length
      let top := match hi with | none => mx | some h => min mx h
      if top < lo then []
      else
        (List.range (top + 1 - lo)).map (fun i =>
          let k := top - i
          ((s.take k).reverse ++ left, s.drop k))
  | .wordB, left, s =>
      let lw := match left with | [] => false | c :: _ => isWordChar c
      let rw := match s with | [] => false | c :: _ => isWordChar c
      if lw != rw then [(left, s)] else []
  | .negLB p, left, s =>
      match left with
      | [] => [(left, s)]
      | c :: _ => if p c then [] else [(left, s)]
  | .negLA p, left, s =>
      match s with
      | [] => [(left, s)]
      | c :: _ => if p c then [] else [(left, s)]

/-- Length of the first (highest-priority) match of `r` at the current
position, if any — the match the `re` engine commits to. -/
def firstMatchLen (r : Re) (left s : List Char) : Option ℕ :=
  match r.run left s with
  | [] => none
  | pr :: _ => some (s.length - pr.2.length)

/-- Combined `pattern.findall` + `pattern.sub(mask_fn, ·)` over one
pattern: scan left to right, take the leftmost match, emit the matched
text and its replacement, resume after the match (a defensive
single-character advance guards the zero-length case, which no pattern
here can produce).  Fuel is an upper bound on the remaining input
length, so it never runs out on a real scan. -/
def reScanFuel (f : List Char → List Char) (r : Re) :
    ℕ → List Char → List Char → (List (List Char) × List Char)
  | 0, _, s => ([], s)
  | _ + 1, _, [] => ([], ([] : List Char))
  | fuel + 1, left, c :: rest =>
      match firstMatchLen r left (c :: rest) with
      | some (k + 1) =>
          match reScanFuel f r fuel (((c :: rest).take (k + 1)).reverse ++ left)
              ((c :: rest).drop (k + 1)) with
          | (ms, out) =>
              ((c :: rest).take (k + 1) :: ms, f ((c :: rest).take (k + 1)) ++ out)
      | _ =>
          match reScanFuel f r fuel (c :: left) rest with
          | (ms, out) => (ms, c :: out)

/-- `pattern.findall text` paired with `pattern.sub(mask_fn, text)`. -/
def reScan (f : List Char → List Char) (r : Re) (s : List Char) :
    List (List Char) × List Char :=
  reScanFuel f r s.length [] s

/-- First-match-only substitution, for the `count=1` inner `re.sub` of
the account-number mask lambda (`pii_masker.py:115`). -/
def reSubFirstFuel (f : List Char → List Char) (r : Re) :
    ℕ → List Char → List Char → List Char
  | 0, _, s => s
  | _ + 1, _, [] => []
  | fuel + 1, left, c :: rest =>
      match firstMatchLen r left (c :: rest) with
      | some (k + 1) =>
          f ((c :: rest).take (k + 1)) ++ (c :: rest).drop (k + 1)
      | _ => c :: reSubFirstFuel f r fuel (c :: left) rest

/-- `re.sub(r, f, s, count=1)`. -/
def reSubFirst (f : List Char → List Char) (r : Re) (s : List Char) : List Char :=
  reSubFirstFuel f r s.length [] s

/-- Case-insensitive literal character (`re.IGNORECASE`). -/
def chrCI (c : Char) : Re := .cls (fun x => x.toLower == c)

/-- Case-sensitive literal character. -/
def chr (c : Char) : Re := .cls (fun x => x == c)

/-- Concatenation of a list of regexes. -/
def seqAll (l : List Re) : Re := l.foldr .seq .eps

/-- Exact repetition `r{n}` as `n` nested concatenations. -/
def seqN (r : Re) : ℕ → Re
  | 0 => .eps
  | n + 1 => .seq r (seqN r n)

/-- Case-insensitive literal word. -/
def strCI (s : String) : Re := seqAll (s.data.map chrCI)

/-- `PIIMasker._mask_card` (`pii_masker.py:54-59`): keep the digits,
show first 4 and last 4, mask the middle. -/
def _mask_card (m : List Char) : List Char :=
  let digits := m.filter Char.isDigit
  if digits.length ≥ 12 then
    digits.take 4 ++ List.replicate (digits.length - 8) '*'
      ++ digits.drop (digits.length - 4)
  else "****".data

/-- `PIIMasker._mask_phone` (`pii_masker.py:47-52`). -/
def _mask_phone (m : List Char) : List Char :=
  let digits := m.filter Char.isDigit
  if digits.length ≥ 8 then
    digits.take 4 ++ List.replicate (digits.length - 6) '*'
      ++ digits.drop (digits.length - 2)
  else "****".data

/-- `PIIMasker._mask_ssn` (`pii_masker.py:61-67`). -/
def _mask_ssn (m : List Char) : List Char :=
  let parts := (String.mk m).splitOn "-"
  match parts with
  | [p0, _, p2] => (p0 ++ "-**-" ++ p2).data
  | _ => "***-**-****".data

/-- `PIIMasker._mask_email` (`pii_masker.py:69-74`): split at the first
`@` (email matches contain exactly one), keep the first two characters
of the local part. -/
def _mask_email (m : List Char) : List Char :=
  let local_ := m.takeWhile (fun c => c != '@')
  let domain := (m.dropWhile (fun c => c != '@')).drop 1
  if local_.length ≤ 2 then
    List.replicate local_.length '*' ++ '@' :: domain
  else
    local_.take 2 ++ List.replicate (local_.length - 2) '*' ++ '@' :: domain

/-- `_mask_account_static` (`pii_masker.py:161-164`). -/
def _mask_account_static (m : List Char) : List Char :=
  if m.length > 6 then
    m.take 4 ++ List.replicate (m.length - 6) '*' ++ m.drop (m.length - 2)
  else m.take 2 ++ "****".data

/-- `\d` as a class. -/
def digitC : Char → Bool := Char.isDigit

/-- One unit `\d[ -]?` of the card pattern. -/
def cardUnit : Re := .seq (.cls digitC) (.opt (.cls fun c => c == ' ' || c == '-'))

/-- `credit_card` pattern `\b(?:\d[ -]?){15,16}\b` (`pii_masker.py:88`);
`{15,16}` is embedded as 15 required units followed by a greedy
optional one (`u{15,16}` matches exactly what `u{15}u?` matches, with
longer matches preferred). -/
def cardRe : Re :=
  seqAll [.wordB, seqN cardUnit 15, .opt cardUnit, .wordB]

/-- `ssn` pattern `\b\d{3}-\d{2}-\d{4}\b` (`pii_masker.py:93`). -/
def ssnRe : Re :=
  seqAll [.wordB, .clsRep digitC 3 (some 3), chr '-', .clsRep digitC 2 (some 2),
    chr '-', .clsRep digitC 4 (some 4), .wordB]

/-- `phone` pattern `(?<!\d)(?:\+91[-\s]?)?[6-9]\d{9}(?!\d)`
(`pii_masker.py:99`). -/
def phoneRe : Re :=
  seqAll [.negLB digitC,
    .opt (seqAll [chr '+', chr '9', chr '1',
      .opt (.cls fun c => c == '-' || c.isWhitespace)]),
    .cls (fun c => '6' ≤ c && c ≤ '9'), .clsRep digitC 9 (some 9),
    .negLA digitC]

/-- Local-part class `[A-Za-z0-9._%+-]` of the email pattern. -/
def emailLocalC (c : Char) : Bool :=
  c.isAlphanum || c == '.' || c == '_' || c == '%' || c == '+' || c == '-'

/-- Domain class `[A-Za-z0-9.-]` of the email pattern. -/
def emailDomC (c : Char) : Bool := c.isAlphanum || c == '.' || c == '-'

/-- `email` pattern `\b[A-Za-z0-9._%+-]+@[A-Za-z0-9.-]+\.[A-Za-z]{2,}\b`
(`pii_masker.py:104`). -/
def emailRe : Re :=
  seqAll [.wordB, .clsRep emailLocalC 1 none, chr '@',
    .clsRep emailDomC 1 none, chr '.', .clsRep Char.isAlpha 2 none, .wordB]

/-- The account-number token `[A-Z]{0,4}\d[A-Z0-9]{5,19}` under
`re.IGNORECASE` (`pii_masker.py:112,115`). -/
def acctTokenRe : Re :=
  seqAll [.clsRep Char.isAlpha 0 (some 4), .cls digitC,
    .clsRep Char.isAlphanum 5 (some 19)]

/-- `account_number` pattern
`\b(?:account\s*(?:no\.?|number|#|:)|a\/c\s*:?|acc\s*:?)\s*([A-Z]{0,4}\d[A-Z0-9]{5,19})\b`
under `re.IGNORECASE` (`pii_masker.py:111-114`). -/
def acctRe : Re :=
  seqAll [.wordB,
    .alt (seqAll [strCI "account", .clsRep Char.isWhitespace 0 none,
        .alt (.seq (strCI "no") (.opt (chr '.')))
          (.alt (strCI "number") (.alt (chr '#') (chr ':')))])
      (.alt (seqAll [strCI "a/c", .clsRep Char.isWhitespace 0 none, .opt (chr ':')])
        (seqAll [strCI "acc", .clsRep Char.isWhitespace 0 none, .opt (chr ':')])),
    .clsRep Char.isWhitespace 0 none, acctTokenRe, .wordB]

/-- The account-number mask lambda (`pii_masker.py:115`): mask the
first account token inside the match, keep the keyword prefix. -/
def maskAccountLambda (m : List Char) : List Char :=
  reSubFirst _mask_account_static acctTokenRe m

/-- `password` pattern `(?:password|passwd|pwd)\s*(?:is|:|=)?\s*(\S+)`
under `re.IGNORECASE` (`pii_masker.py:119`). -/
def pwdRe : Re :=
  seqAll [.alt (strCI "password") (.alt (strCI "passwd") (strCI "pwd")),
    .clsRep Char.isWhitespace 0 none,
    .opt (.alt (strCI "is") (.alt (chr ':') (chr '='))),
    .clsRep Char.isWhitespace 0 none,
    .clsRep (fun c => !c.isWhitespace) 1 none]

/-- The password mask lambda `re.sub(r'(\S+)$', '********', m)`
(`pii_masker.py:120`): replace the trailing run of non-space characters
with eight asterisks. -/
def maskPasswordLambda (m : List Char) : List Char :=
  let trailing := (m.reverse.takeWhile (fun c => !c.isWhitespace)).length
  if trailing = 0 then m
  else m.take (m.length - trailing) ++ "********".data

/-- `MaskedMessage` dataclass (`pii_masker.py:14-27`). -/
structure MaskedMessage where
  original : String
  masked : String
  pii_found : List (String × List String)
  has_sensitive_info : Bool
deriving DecidableEq, Repr

/-- `PIIMasker.PATTERNS` (`pii_masker.py:85-122`), in order.  (For the
two patterns containing a capture group, Python `findall` would record
the group text rather than the full match; the label-keyed presence in
`pii_found`, which is all any claim reads, is identical.) -/
def PATTERNS : List (String × Re × (List Char → List Char)) :=
  [ ("credit_card", cardRe, _mask_card),
    ("ssn", ssnRe, _mask_ssn),
    ("phone", phoneRe, _mask_phone),
    ("email", emailRe, _mask_email),
    ("account_number", acctRe, maskAccountLambda),
    ("password", pwdRe, maskPasswordLambda) ]

/-- `PIIMasker.mask` (`pii_masker.py:124-145`): run each pattern in
order over the progressively masked text; record found PII under the
pattern's label; the sensitive flag is `bool(pii_found)`. -/
def mask (text : String) : MaskedMessage :=
  let step := fun (acc : String × List (String × List String))
      (p : String × Re × (List Char → List Char)) =>
    match reScan p.2.2 p.2.1 acc.1.data with
    | (ms, out) =>
        if ms.isEmpty then acc
        else (String.mk out, acc.2 ++ [(p.1, ms.map String.mk)])
  match PATTERNS.foldl step (text, []) with
  | (masked, found) =>
      { original := text, masked := masked, pii_found := found,
        has_sensitive_info := !found.isEmpty }

end PIIMasker


/-! ### IEEE-754 binary64 semantics of the normalization

The program computes scores and confidences in Python floats (IEEE-754
binary64).  `fl` is the standard semantics of one binary64 rounding —
round to nearest, ties to even, 53-bit significand — for positive
values in the normal finite range (every value arising below is such).
The `*_f` definitions replay the arithmetic of `classify`
(`intent_classifier.py:295-318`) for the query "money fund upcoming",
whose matched keyword weights are 0.7 ("money", transactions),
1.0 ("fund", goals) and 1.0 ("upcoming", reminders), with a rounding
after the float literal and after every addition and division, exactly
as binary64 evaluates them. -/

namespace IntentClassifier

/-- One binary64 rounding of a positive rational in the normal finite
range: with `e = ⌊log₂ x⌋`, round `x` onto the grid of spacing
`2^(e-52)`, to nearest with ties to even.  Nonpositive inputs (which
do not arise here) map to 0; subnormals and overflow are outside the
range of the modelled pipeline. -/
def fl (x : ℚ) : ℚ :=
  if x ≤ 0 then 0
  else (roundHalfEven (x * 2 ^ (52 - Int.log 2 x)) : ℚ) * 2 ^ (Int.log 2 x - 52)

/-- `intent_scores["transactions"]` in binary64: `0.0 + 0.7`, the
source literal `0.7` being the binary64 value nearest 7/10. -/
def scoreT_f : ℚ := fl (0 + fl (7/10))

/-- `intent_scores["goals"]` in binary64: `0.0 + 1.0`. -/
def scoreG_f : ℚ := fl (0 + 1)

/-- `intent_scores["reminders"]` in binary64: `0.0 + 1.0`. -/
def scoreR_f : ℚ := fl (0 + 1)

/-- `total_score = sum(intent_scores.values())` in binary64: left to
right from 0.0, rounding after each addition. -/
def total_f : ℚ := fl (fl (fl (0 + scoreT_f) + scoreG_f) + scoreR_f)

/-- `normalized["transactions"] = score / total_score` in binary64. -/
def confT_f : ℚ := fl (scoreT_f / total_f)

/-- `normalized["goals"]` in binary64. -/
def confG_f : ℚ := fl (scoreG_f / total_f)

/-- `normalized["reminders"]` in binary64. -/
def confR_f : ℚ := fl (scoreR_f / total_f)

/-- `sum(normalized.values())` in binary64, left to right. -/
def confSum_f : ℚ := fl (fl (confT_f + confG_f) + confR_f)

end IntentClassifier

/-!
## Theorems

Helper lemmas first, then one theorem per specification claim (with a
witness instance where the claim's theorem carries hypotheses).
-/

namespace IntentClassifier

/-- The tie-breaking argmax always returns one of the three intents. -/
theorem argmaxIntent_mem (t g r : ℚ) :
    argmaxIntent t g r = "transactions" ∨ argmaxIntent t g r = "goals"
    ∨ argmaxIntent t g r = "reminders" := by
  unfold argmaxIntent
  split <;> split <;> simp

end IntentClassifier

namespace IntentClassifier

/-- C8 amended: with strictly positive total weight, the per-category
confidences (each accumulator divided by the total) sum to exactly 1
in exact rational arithmetic — the normalization is mathematically
exact.  Under the program's IEEE-754 binary64 evaluation the sum can
differ from 1.0; see the counterexample at "money fund upcoming". -/
theorem normalized_confidences_sum_one (q : String) (h : 0 < totalScore q) :
    normT q + normG q + normR q = 1 := by
  have hne : totalScore q ≠ 0 := ne_of_gt h
  unfold normT normG normR
  rw [div_add_div_same, div_add_div_same]
  have hfold : scoreT q + scoreG q + scoreR q = totalScore q := rfl
  rw [hfold]
  exact div_self hne

/-- C3: a query containing any broad analytical phrase yields the
all-true fetch plan, regardless of other keywords. -/
theorem broad_phrase_override (q : String)
    (h : ∃ p ∈ FETCH_ALL_PHRASES, containsSub p.data (pyLower q).data = true) :
    get_intents_for_fetch q = ⟨true, true, true⟩ := by
  have hany : FETCH_ALL_PHRASES.any
      (fun p => containsSub p.data (pyLower q).data) = true :=
    List.any_eq_true.mpr (by rcases h with ⟨p, hp, hc⟩; exact ⟨p, hp, hc⟩)
  unfold get_intents_for_fetch
  rw [if_pos hany]

/-- C3 witness: "overview" is an analytical phrase, and the plan for a
query containing it enables all three categories. -/
theorem broad_phrase_override_witness :
    (∃ p ∈ FETCH_ALL_PHRASES,
      containsSub p.data (pyLower "give me an overview of my spending").data = true)
    ∧ get_intents_for_fetch "give me an overview of my spending" = ⟨true, true, true⟩ :=
  ⟨by decide, broad_phrase_override "give me an overview of my spending" (by decide)⟩

end IntentClassifier

namespace IntentClassifier

/-- Concrete evaluation: the only transactions keyword inside
"transaction" is "transaction" itself, with weight 1.5. -/
theorem scoreT_transaction : scoreT "transaction" = 3/2 := by
  simp +decide only [scoreT, intentScore, TRANSACTIONS_KEYWORDS, List.foldl]
  norm_num

/-- Concrete evaluation: no goals keyword occurs in "transaction". -/
theorem scoreG_transaction : scoreG "transaction" = 0 := by
  simp +decide only [scoreG, intentScore, GOALS_KEYWORDS, List.foldl]

/-- Concrete evaluation: no reminders keyword occurs in "transaction". -/
theorem scoreR_transaction : scoreR "transaction" = 0 := by
  simp +decide only [scoreR, intentScore, REMINDERS_KEYWORDS, List.foldl]

/-- C8 witness: the query "transaction" has positive total weight and
its three confidences sum to exactly 1. -/
theorem normalized_confidences_sum_one_witness :
    0 < totalScore "transaction"
    ∧ normT "transaction" + normG "transaction" + normR "transaction" = 1 := by
  have h : 0 < totalScore "transaction" := by
    unfold totalScore
    rw [scoreT_transaction, scoreG_transaction, scoreR_transaction]
    norm_num
  exact ⟨h, normalized_confidences_sum_one "transaction" h⟩

end IntentClassifier

namespace IntentClassifier

/-- Every multi-intent phrase activates at least one category flag. -/
theorem multi_any :
    ∀ pr ∈ MULTI_INTENT_PHRASES,
      anyFlag (pr.2.foldl setFlag ⟨false, false, false⟩) = true := by
  decide

/-- Setting any flag preserves "some flag is on". -/
theorem anyFlag_setFlag (p : FetchPlan) (x : String) (h : anyFlag p = true) :
    anyFlag (setFlag p x) = true := by
  unfold setFlag
  split
  · simp [anyFlag]
  · split
    · simp [anyFlag]
    · split
      · simp [anyFlag]
      · exact h

/-- Setting one of the three known flags turns "some flag is on" true. -/
theorem anyFlag_setFlag_mem (x : String)
    (hx : x = "transactions" ∨ x = "goals" ∨ x = "reminders") (p : FetchPlan) :
    anyFlag (setFlag p x) = true := by
  rcases hx with h | h | h <;> subst h <;> simp [setFlag, anyFlag]

/-- The secondary-intent fold of `get_intents_for_fetch` only ever adds
flags, so it preserves "some flag is on". -/
theorem anyFlag_foldl_secondary (l : List (String × ℚ)) (acc : FetchPlan)
    (h : anyFlag acc = true) :
    anyFlag (l.foldl
      (fun acc p =>
        if decide (p.2 > 1/4)
            && decide (p.1 ∈ (["transactions", "goals", "reminders"] : List String))
        then setFlag acc p.1 else acc) acc) = true := by
  induction l generalizing acc with
  | nil => exact h
  | cons hd tl ih =>
      simp only [List.foldl_cons]
      apply ih
      split
      · exact anyFlag_setFlag acc hd.1 h
      · exact h

/-- The classifier's primary intent is the sentinel or the argmax. -/
theorem classify_primary_eq (q : String) :
    (classify q).primary_intent = "general"
    ∨ (classify q).primary_intent = primaryOf q := by
  unfold classify
  split
  · exact Or.inl rfl
  · split
    · exact Or.inl rfl
    · exact Or.inr rfl

/-- C9: for every query (including the empty string) the fetch plan
activates at least one category — no branch of
`get_intents_for_fetch` can produce an all-false plan. -/
theorem plan_never_all_false (q : String) :
    anyFlag (get_intents_for_fetch q) = true := by
  unfold get_intents_for_fetch
  split
  · rfl
  · split
    · next pr hfind =>
        exact multi_any pr (List.mem_of_find?_eq_some hfind)
    · next hfind =>
        split
        · rfl
        · next hgen =>
            apply anyFlag_foldl_secondary
            have hp : (classify q).primary_intent = primaryOf q := by
              rcases classify_primary_eq q with h | h
              · exact absurd h hgen
              · exact h
            rw [hp]
            apply anyFlag_setFlag_mem
            exact argmaxIntent_mem _ _ _

end IntentClassifier

namespace IntentClassifier

/-- Concrete evaluation: the query of the end-to-end scenario matches
exactly one transactions keyword, "how much did i spend" (weight 3). -/
theorem scoreT_q7 : scoreT "How much did I spend last week on food?" = 3 := by
  simp +decide only [scoreT, intentScore, TRANSACTIONS_KEYWORDS, List.foldl]
  norm_num

/-- Concrete evaluation: no goals keyword occurs in the scenario query. -/
theorem scoreG_q7 : scoreG "How much did I spend last week on food?" = 0 := by
  simp +decide only [scoreG, intentScore, GOALS_KEYWORDS, List.foldl]

/-- Concrete evaluation: no reminders keyword occurs in the scenario query. -/
theorem scoreR_q7 : scoreR "How much did I spend last week on food?" = 0 := by
  simp +decide only [scoreR, intentScore, REMINDERS_KEYWORDS, List.foldl]

/-- Total weight of the scenario query. -/
theorem totalScore_q7 : totalScore "How much did I spend last week on food?" = 3 := by
  unfold totalScore
  rw [scoreT_q7, scoreG_q7, scoreR_q7]
  norm_num

/-- Maximum weight of the scenario query. -/
theorem maxScore_q7 : maxScore "How much did I spend last week on food?" = 3 := by
  unfold maxScore
  rw [scoreT_q7, scoreG_q7, scoreR_q7]
  norm_num

/-- Normalized transactions score of the scenario query. -/
theorem normT_q7 : normT "How much did I spend last week on food?" = 1 := by
  unfold normT
  rw [scoreT_q7, totalScore_q7]
  norm_num

/-- Normalized goals score of the scenario query. -/
theorem normG_q7 : normG "How much did I spend last week on food?" = 0 := by
  unfold normG
  rw [scoreG_q7, totalScore_q7]
  norm_num

/-- Normalized reminders score of the scenario query. -/
theorem normR_q7 : normR "How much did I spend last week on food?" = 0 := by
  unfold normR
  rw [scoreR_q7, totalScore_q7]
  norm_num

/-- The scenario query's argmax is the transactions intent. -/
theorem primaryOf_q7 :
    primaryOf "How much did I spend last week on food?" = "transactions" := by
  unfold primaryOf
  rw [normT_q7, normG_q7, normR_q7]
  unfold argmaxIntent
  rw [if_neg (by norm_num), if_neg (by norm_num)]

/-- The scenario query's confidence is 1 (all weight on one intent). -/
theorem confOf_q7 : confOf "How much did I spend last week on food?" = 1 := by
  unfold confOf
  rw [primaryOf_q7, if_pos rfl, normT_q7]

/-- The scenario query has no secondary intents. -/
theorem secondaryOf_q7 :
    secondaryOf "How much did I spend last week on food?" = [] := by
  unfold secondaryOf
  rw [primaryOf_q7, normT_q7, normG_q7, normR_q7]
  decide

/-- The classifier's primary intent on the scenario query. -/
theorem classify_q7_primary :
    (classify "How much did I spend last week on food?").primary_intent
      = "transactions" := by
  unfold classify
  rw [if_neg (by rw [totalScore_q7, maxScore_q7]; norm_num),
    if_neg (by rw [confOf_q7]; norm_num)]
  exact primaryOf_q7

/-- The classifier's secondary intents on the scenario query. -/
theorem classify_q7_secondary :
    (classify "How much did I spend last week on food?").secondary_intents
      = [] := by
  unfold classify
  rw [if_neg (by rw [totalScore_q7, maxScore_q7]; norm_num),
    if_neg (by rw [confOf_q7]; norm_num)]
  exact secondaryOf_q7

/-- The fetch plan for the scenario query enables only transactions. -/
theorem plan_q7 :
    get_intents_for_fetch "How much did I spend last week on food?"
      = ⟨true, false, false⟩ := by
  unfold get_intents_for_fetch
  rw [if_neg (by decide)]
  have hfind : MULTI_INTENT_PHRASES.find?
      (fun p => containsSub p.1.data
        (pyLower "How much did I spend last week on food?").data) = none := by
    decide
  split
  · next pr hpr =>
      rw [hfind] at hpr
      exact Option.noConfusion hpr
  · rw [if_neg (by rw [classify_q7_primary]; decide),
      classify_q7_secondary, classify_q7_primary]
    decide

/-- C7 counterexample: the code maps "last week" to a 14-day offset
(`TIME_PATTERNS`), so the extracted window for the scenario query is
the trailing 14 days, not the trailing 7 days the claim states. -/
theorem last_week_window_counterexample :
    extract_time_range 0 "How much did I spend last week on food?"
      = (some (-14), 0)
    ∧ (some (-14 : ℤ)) ≠ some (-7 : ℤ) := by
  constructor
  · rfl
  · decide

/-- C7 amended: the scenario query yields the transactions-only fetch
plan, its time window is the trailing 14 days ending now (the code's
"last week" offset), and any query matching no temporal phrase gets the
default trailing 30-day window. -/
theorem last_week_plan_and_window :
    get_intents_for_fetch "How much did I spend last week on food?"
      = ⟨true, false, false⟩
    ∧ (∀ now : ℤ,
        extract_time_range now "How much did I spend last week on food?"
          = (some (now - 14), now))
    ∧ (∀ (now : ℤ) (q : String),
        (∀ p ∈ TIME_PATTERNS, containsSub p.1.data (pyLower q).data = false) →
        extract_time_range now q = (some (now - 30), now)) := by
  refine ⟨plan_q7, fun now => rfl, fun now q h => ?_⟩
  have hfind : TIME_PATTERNS.find?
      (fun p => containsSub p.1.data (pyLower q).data) = none :=
    List.find?_eq_none.mpr (fun x hx => by simp [h x hx])
  unfold extract_time_range
  rw [hfind]

/-- C7 witness: "hello" matches no temporal phrase; its window is the
default trailing 30 days. -/
theorem last_week_plan_and_window_witness :
    extract_time_range 5 "hello" = (some (5 - 30), 5) :=
  last_week_plan_and_window.2.2 5 "hello" (by decide)

end IntentClassifier

namespace ChatMemory

/-- An append that stays within the cap is a plain append. -/
theorem add_message_no_trim (N : ℕ) (msgs : List Message) (m : Message)
    (h : msgs.length + 1 ≤ N) : add_message N msgs m = msgs ++ [m] := by
  unfold add_message
  rw [if_neg (by simp; omega)]

/-- Folding appends that never reach the cap is list concatenation. -/
theorem foldl_no_trim (N : ℕ) :
    ∀ (ms acc : List Message), acc.length + ms.length ≤ N →
      ms.foldl (add_message N) acc = acc ++ ms
  | [], acc, _ => by simp
  | m :: rest, acc, h => by
      simp only [List.foldl_cons]
      rw [add_message_no_trim N acc m (by simp at h ⊢; omega)]
      rw [foldl_no_trim N rest (acc ++ [m]) (by simp at h ⊢; omega)]
      simp

/-- Appending exactly one turn beyond the cap evicts exactly the first
element: only the last step trims, and it trims one element. -/
theorem foldl_trim_once (N : ℕ) (hN : 1 ≤ N) (ms acc : List Message)
    (hlen : acc.length + ms.length = N + 1) (hne : ms ≠ []) :
    ms.foldl (add_message N) acc = (acc ++ ms).drop 1 := by
  obtain ⟨ms', lastm, hms⟩ : ∃ ms' lastm, ms = ms' ++ [lastm] :=
    ⟨ms.dropLast, ms.getLast hne, (List.dropLast_append_getLast hne).symm⟩
  subst hms
  rw [List.foldl_append]
  rw [foldl_no_trim N ms' acc (by simp at hlen ⊢; omega)]
  simp only [List.foldl_cons, List.foldl_nil]
  unfold add_message
  rw [if_pos (by simp at hlen ⊢; omega)]
  unfold sliceLastPy
  rw [if_neg (by omega)]
  have hl : ((acc ++ ms') ++ [lastm]).length = N + 1 := by
    simp at hlen ⊢; omega
  rw [hl]
  have h1 : N + 1 - N = 1 := by omega
  rw [h1, List.append_assoc]

/-- C6 counterexample: a session whose cap is `N = 0` retains one turn
after one append — Python's `lst[-0:]` is the whole list, so the claim
"appending N+1 turns leaves exactly N turns" fails at `N = 0`. -/
theorem session_cap_zero_counterexample :
    (addAll 0 [⟨"human", "hi"⟩]).length = 1
    ∧ addAll 0 [⟨"human", "hi"⟩] ≠ [] := by
  constructor
  · rfl
  · decide

/-- C6 amended: for every cap `N ≥ 1`, appending `N + 1` turns to a
fresh session leaves exactly the last `N` of them — the evicted turn is
the oldest (first appended) — and every single append preserves the
invariant that the history length never exceeds the cap. -/
theorem session_cap_ring_buffer (N : ℕ) (hN : 1 ≤ N) (m0 : Message)
    (rest : List Message) (hrest : rest.length = N) :
    addAll N (m0 :: rest) = rest
    ∧ (addAll N (m0 :: rest)).length = N
    ∧ ∀ (msgs : List Message) (m : Message), msgs.length ≤ N →
        (add_message N msgs m).length ≤ N := by
  have h1 : addAll N (m0 :: rest) = rest := by
    unfold addAll
    rw [foldl_trim_once N hN (m0 :: rest) [] (by simp [hrest]) (by simp)]
    simp
  refine ⟨h1, by rw [h1, hrest], ?_⟩
  intro msgs m hlen
  unfold add_message
  dsimp only
  split
  · unfold sliceLastPy
    rw [if_neg (by omega)]
    simp only [List.length_drop, List.length_append, List.length_singleton]
    omega
  · next hcond =>
      simp only [List.length_append, List.length_singleton] at hcond ⊢
      omega

/-- C6 witness: cap 2, three appended turns, the first is evicted. -/
theorem session_cap_ring_buffer_witness :
    addAll 2 [⟨"human", "a"⟩, ⟨"ai", "b"⟩, ⟨"human", "c"⟩]
      = [⟨"ai", "b"⟩, ⟨"human", "c"⟩]
    ∧ (addAll 2 [⟨"human", "a"⟩, ⟨"ai", "b"⟩, ⟨"human", "c"⟩]).length = 2 :=
  ⟨(session_cap_ring_buffer 2 (by decide) ⟨"human", "a"⟩
      [⟨"ai", "b"⟩, ⟨"human", "c"⟩] (by decide)).1,
   (session_cap_ring_buffer 2 (by decide) ⟨"human", "a"⟩
      [⟨"ai", "b"⟩, ⟨"human", "c"⟩] (by decide)).2.1⟩

end ChatMemory

namespace Orchestrator

/-- C2: if the primary provider's invocation throws and the Gemini
fallback succeeds, the returned provider field is "gemini", the call
reports success, and the conversation history gains exactly one human
turn and one assistant turn for the query (not two of either). -/
theorem fallback_provider_single_append (cap : ℕ)
    (hist : List ChatMemory.Message) (provider e resp query : String)
    (hp : provider ≠ "gemini") (hcap : hist.length + 2 ≤ cap) :
    (process_authenticated_query cap hist provider (.error e) (.ok resp) query).provider
      = some "gemini"
    ∧ (process_authenticated_query cap hist provider (.error e) (.ok resp) query).status
      = "success"
    ∧ (process_authenticated_query cap hist provider (.error e) (.ok resp) query).histAfter
      = hist ++ [⟨"human", query⟩, ⟨"ai", resp⟩] := by
  unfold process_authenticated_query
  dsimp only
  rw [if_pos hp]
  refine ⟨rfl, rfl, ?_⟩
  dsimp only
  have e1 := ChatMemory.add_message_no_trim cap hist ⟨"human", query⟩ (by omega)
  rw [e1]
  have e2 := ChatMemory.add_message_no_trim cap
    (hist ++ [(⟨"human", query⟩ : ChatMemory.Message)])
    ⟨"ai", resp⟩ (by simp; omega)
  rw [e2]
  simp

/-- C2 witness: primary "groq" fails, Gemini succeeds; the result
reports Gemini and the fresh history holds one human and one ai turn. -/
theorem fallback_provider_single_append_witness :
    (process_authenticated_query 50 [] "groq" (.error "boom") (.ok "hi") "q").provider
      = some "gemini"
    ∧ (process_authenticated_query 50 [] "groq" (.error "boom") (.ok "hi") "q").histAfter
      = [] ++ [⟨"human", "q"⟩, ⟨"ai", "hi"⟩] :=
  ⟨(fallback_provider_single_append 50 [] "groq" "boom" "hi" "q"
      (by decide) (by decide)).1,
   (fallback_provider_single_append 50 [] "groq" "boom" "hi" "q"
      (by decide) (by decide)).2.2⟩

end Orchestrator

namespace DataFetcher

/-- C1: with the goals service throwing and the others succeeding, the
parallel fetch still returns one entry per requested category, the
goals entry carries the error marker (the helper's caught-error data
dict), the other entries are populated, and — the second conjunct, for
every service behaviour and every requested list — the overall call
always returns an entry for every requested category and never fails. -/
theorem fetch_partial_failure_isolation (uid q tx rem gen e : String) (now : ℕ) :
    (fetch_multi_intent_data ⟨.ok tx, .error e, .ok rem, .ok gen⟩ uid
        ["transactions", "goals", "reminders"] q now).intents_data
      = [("transactions", .result ⟨"transactions", uid, now, .content tx, none⟩),
         ("goals", .result ⟨"goals", uid, now, .withError e, none⟩),
         ("reminders", .result ⟨"reminders", uid, now, .content rem, none⟩)]
    ∧ ∀ (s : Services) (intents : List String),
        (fetch_multi_intent_data s uid intents q now).intents_data.map Prod.fst
          = intents := by
  constructor
  · rfl
  · intro s intents
    unfold fetch_multi_intent_data
    dsimp only
    induction intents with
    | nil => rfl
    | cons hd tl ih => simp_all

/-- C10: fetching a single intent outside the known set does not raise
and attaches no error marker: the result echoes the intent, user id and
timestamp with an empty data payload. -/
theorem unknown_intent_empty_result (s : Services) (uid intent : String) (now : ℕ)
    (h : intent ∉ (["transactions", "goals", "reminders", "general"] : List String)) :
    fetch_intent_data s uid intent now = ⟨intent, uid, now, .empty, none⟩ := by
  simp only [List.mem_cons, List.not_mem_nil, or_false, not_or] at h
  obtain ⟨h1, h2, h3, h4⟩ := h
  unfold fetch_intent_data
  dsimp only
  rw [if_neg h1, if_neg h2, if_neg h3, if_neg h4]

/-- C10 witness: the unknown intent "weather" is echoed back with an
empty data payload and no error. -/
theorem unknown_intent_empty_result_witness :
    fetch_intent_data ⟨.ok "t", .ok "g", .ok "r", .ok "x"⟩ "u1" "weather" 7
      = ⟨"weather", "u1", 7, .empty, none⟩ :=
  unknown_intent_empty_result ⟨.ok "t", .ok "g", .ok "r", .ok "x"⟩ "u1" "weather" 7
    (by decide)

end DataFetcher

namespace PIIMasker

/-- C5: sanitizing "card 4111111111111111" keeps the first 4 and last 4
digits of the 16-digit run, replaces the middle 8 digits with the mask
character, and sets the sensitive flag. -/
theorem card_masking_concrete :
    (mask "card 4111111111111111").masked = "card 4111********1111"
    ∧ (mask "card 4111111111111111").has_sensitive_info = true := by
  constructor
  · rfl
  · rfl

end PIIMasker

namespace IntentClassifier

/-- `Int.log 2` is characterized by the bracketing powers of two. -/
theorem int_log_eq (x : ℚ) (e : ℤ) (hx : 0 < x)
    (h1 : (2 : ℚ) ^ e ≤ x) (h2 : x < (2 : ℚ) ^ (e + 1)) : Int.log 2 x = e := by
  have hb : 1 < (2 : ℕ) := by norm_num
  have hle : e ≤ Int.log 2 x := by
    rw [← Int.zpow_le_iff_le_log hb hx]
    exact_mod_cast h1
  have hlt : Int.log 2 x < e + 1 := by
    rw [← Int.lt_zpow_iff_log_lt hb hx]
    exact_mod_cast h2
  omega

/-- Unfolding of one binary64 rounding at a known exponent. -/
theorem fl_eq_of_bounds (x : ℚ) (e : ℤ) (hx : 0 < x)
    (h1 : (2 : ℚ) ^ e ≤ x) (h2 : x < (2 : ℚ) ^ (e + 1)) :
    fl x = (roundHalfEven (x * 2 ^ (52 - e)) : ℚ) * 2 ^ (e - 52) := by
  unfold fl
  rw [if_neg (not_le.mpr hx), int_log_eq x e hx h1 h2]

/-- Round-half-even evaluation, fraction below one half. -/
theorem roundHE_down (x : ℚ) (n : ℤ) (h1 : (n : ℚ) ≤ x) (h2 : x - n < 1/2) :
    roundHalfEven x = n := by
  have hf : ⌊x⌋ = n := by
    rw [Int.floor_eq_iff]
    exact ⟨h1, by linarith⟩
  unfold roundHalfEven
  rw [hf, if_pos (by linarith)]

/-- Round-half-even evaluation, fraction above one half. -/
theorem roundHE_up (x : ℚ) (n : ℤ) (h1 : 1/2 < x - n) (h2 : x < n + 1) :
    roundHalfEven x = n + 1 := by
  have hf : ⌊x⌋ = n := by
    rw [Int.floor_eq_iff]
    exact ⟨by linarith, h2⟩
  unfold roundHalfEven
  rw [hf, if_neg (by linarith), if_pos (by linarith)]

/-- Round-half-even evaluation, exact tie. -/
theorem roundHE_tie (x : ℚ) (n : ℤ) (h : x - n = 1/2) :
    roundHalfEven x = if n % 2 = 0 then n else n + 1 := by
  have hf : ⌊x⌋ = n := by
    rw [Int.floor_eq_iff]
    exact ⟨by linarith, by linarith⟩
  unfold roundHalfEven
  rw [hf, if_neg (by linarith), if_neg (by linarith)]

/-- The float literal `0.7` is the binary64 value 3152519739159347/2^52. -/
theorem fl_seven_tenths : fl (7/10) = 3152519739159347 / 2 ^ 52 := by
  rw [fl_eq_of_bounds (7/10) (-1) (by norm_num) (by norm_num) (by norm_num)]
  rw [show (52 : ℤ) - (-1) = 53 by norm_num]
  rw [roundHE_down ((7/10) * 2 ^ (53:ℤ)) 6305039478318694 (by norm_num) (by norm_num)]
  norm_num

/-- The stored double 0.7 is exactly representable, so re-rounding it
is the identity. -/
theorem fl_wt : fl (3152519739159347 / 2 ^ 52) = 3152519739159347 / 2 ^ 52 := by
  rw [fl_eq_of_bounds ((3152519739159347 : ℚ) / 2 ^ 52) (-1)
    (by norm_num) (by norm_num) (by norm_num)]
  rw [show (52 : ℤ) - (-1) = 53 by norm_num]
  rw [roundHE_down ((3152519739159347 : ℚ) / 2 ^ 52 * 2 ^ (53:ℤ)) 6305039478318694
    (by norm_num) (by norm_num)]
  norm_num

/-- The transactions score of the counterexample query in binary64. -/
theorem scoreT_f_eq : scoreT_f = 3152519739159347 / 2 ^ 52 := by
  unfold scoreT_f
  rw [fl_seven_tenths, zero_add, fl_wt]

/-- The goals score of the counterexample query in binary64. -/
theorem scoreG_f_eq : scoreG_f = 1 := by
  unfold scoreG_f
  rw [zero_add]
  rw [fl_eq_of_bounds 1 0 (by norm_num) (by norm_num) (by norm_num)]
  rw [show (52 : ℤ) - 0 = 52 by norm_num]
  rw [roundHE_down ((1:ℚ) * 2 ^ (52:ℤ)) 4503599627370496 (by norm_num) (by norm_num)]
  norm_num

/-- The reminders score of the counterexample query in binary64. -/
theorem scoreR_f_eq : scoreR_f = 1 := by
  unfold scoreR_f
  rw [zero_add]
  rw [fl_eq_of_bounds 1 0 (by norm_num) (by norm_num) (by norm_num)]
  rw [show (52 : ℤ) - 0 = 52 by norm_num]
  rw [roundHE_down ((1:ℚ) * 2 ^ (52:ℤ)) 4503599627370496 (by norm_num) (by norm_num)]
  norm_num

/-- `0.7 + 1.0` is exact in binary64 (the sum fits in 53 bits). -/
theorem fl_B : fl (7656119366529843 / 2 ^ 52) = 7656119366529843 / 2 ^ 52 := by
  rw [fl_eq_of_bounds ((7656119366529843 : ℚ) / 2 ^ 52) 0
    (by norm_num) (by norm_num) (by norm_num)]
  rw [show (52 : ℤ) - 0 = 52 by norm_num]
  rw [roundHE_down ((7656119366529843 : ℚ) / 2 ^ 52 * 2 ^ (52:ℤ)) 7656119366529843
    (by norm_num) (by norm_num)]
  norm_num

/-- `total_score` in binary64: `(0.7 + 1.0) + 1.0` falls on an exact
tie between representable neighbours and rounds up to the even
significand, giving 3039929748475085/2^50 (≈ 2.7000000000000002). -/
theorem total_f_eq : total_f = 3039929748475085 / 2 ^ 50 := by
  unfold total_f
  rw [scoreT_f_eq, scoreG_f_eq, scoreR_f_eq, zero_add, fl_wt]
  rw [show (3152519739159347 : ℚ) / 2 ^ 52 + 1 = 7656119366529843 / 2 ^ 52 by norm_num]
  rw [fl_B]
  rw [show (7656119366529843 : ℚ) / 2 ^ 52 + 1 = 12159718993900339 / 2 ^ 52 by norm_num]
  rw [fl_eq_of_bounds ((12159718993900339 : ℚ) / 2 ^ 52) 1
    (by norm_num) (by norm_num) (by norm_num)]
  rw [show (52 : ℤ) - 1 = 51 by norm_num]
  rw [roundHE_tie ((12159718993900339 : ℚ) / 2 ^ 52 * 2 ^ (51:ℤ)) 6079859496950169
    (by norm_num)]
  rw [if_neg (by decide)]
  norm_num

/-- `normalized["transactions"]` in binary64. -/
theorem confT_f_eq : confT_f = 4670399613569403 / 2 ^ 54 := by
  unfold confT_f
  rw [scoreT_f_eq, total_f_eq]
  rw [show (3152519739159347 : ℚ) / 2 ^ 52 / (3039929748475085 / 2 ^ 50)
    = 3152519739159347 / 12159718993900340 by norm_num]
  rw [fl_eq_of_bounds ((3152519739159347 : ℚ) / 12159718993900340) (-2)
    (by norm_num) (by norm_num) (by norm_num)]
  rw [show (52 : ℤ) - (-2) = 54 by norm_num]
  rw [roundHE_up ((3152519739159347 : ℚ) / 12159718993900340 * 2 ^ (54:ℤ))
    4670399613569402 (by norm_num) (by norm_num)]
  norm_num

/-- `normalized["goals"]` in binary64. -/
theorem confG_f_eq : confG_f = 3335999723978145 / 2 ^ 53 := by
  unfold confG_f
  rw [scoreG_f_eq, total_f_eq]
  rw [show (1 : ℚ) / (3039929748475085 / 2 ^ 50)
    = 1125899906842624 / 3039929748475085 by norm_num]
  rw [fl_eq_of_bounds ((1125899906842624 : ℚ) / 3039929748475085) (-2)
    (by norm_num) (by norm_num) (by norm_num)]
  rw [show (52 : ℤ) - (-2) = 54 by norm_num]
  rw [roundHE_up ((1125899906842624 : ℚ) / 3039929748475085 * 2 ^ (54:ℤ))
    6671999447956289 (by norm_num) (by norm_num)]
  norm_num

/-- `normalized["reminders"]` in binary64. -/
theorem confR_f_eq : confR_f = 3335999723978145 / 2 ^ 53 := by
  unfold confR_f
  rw [scoreR_f_eq, total_f_eq]
  rw [show (1 : ℚ) / (3039929748475085 / 2 ^ 50)
    = 1125899906842624 / 3039929748475085 by norm_num]
  rw [fl_eq_of_bounds ((1125899906842624 : ℚ) / 3039929748475085) (-2)
    (by norm_num) (by norm_num) (by norm_num)]
  rw [show (52 : ℤ) - (-2) = 54 by norm_num]
  rw [roundHE_up ((1125899906842624 : ℚ) / 3039929748475085 * 2 ^ (54:ℤ))
    6671999447956289 (by norm_num) (by norm_num)]
  norm_num

/-- The first float addition of the confidence sum falls on a tie and
rounds to the even significand. -/
theorem fl_u1 : fl (4670399613569403 / 2 ^ 54 + 3335999723978145 / 2 ^ 53)
    = 2835599765381423 / 2 ^ 52 := by
  rw [show (4670399613569403 : ℚ) / 2 ^ 54 + 3335999723978145 / 2 ^ 53
    = 11342399061525693 / 2 ^ 54 by norm_num]
  rw [fl_eq_of_bounds ((11342399061525693 : ℚ) / 2 ^ 54) (-1)
    (by norm_num) (by norm_num) (by norm_num)]
  rw [show (52 : ℤ) - (-1) = 53 by norm_num]
  rw [roundHE_tie ((11342399061525693 : ℚ) / 2 ^ 54 * 2 ^ (53:ℤ))
    5671199530762846 (by norm_num)]
  rw [if_pos (by decide)]
  norm_num

/-- `sum(normalized.values())` in binary64 is (2^53 - 1)/2^53, one ulp
below 1. -/
theorem confSum_f_eq : confSum_f = 9007199254740991 / 2 ^ 53 := by
  unfold confSum_f
  rw [confT_f_eq, confG_f_eq, confR_f_eq, fl_u1]
  rw [show (2835599765381423 : ℚ) / 2 ^ 52 + 3335999723978145 / 2 ^ 53
    = 9007199254740991 / 2 ^ 53 by norm_num]
  rw [fl_eq_of_bounds ((9007199254740991 : ℚ) / 2 ^ 53) (-1)
    (by norm_num) (by norm_num) (by norm_num)]
  rw [show (52 : ℤ) - (-1) = 53 by norm_num]
  rw [roundHE_down ((9007199254740991 : ℚ) / 2 ^ 53 * 2 ^ (53:ℤ))
    9007199254740991 (by norm_num) (by norm_num)]
  norm_num

/-- C8 counterexample: the realizable query "money fund upcoming"
matches exactly the weights 0.7 (transactions), 1.0 (goals) and
1.0 (reminders), a strictly positive total; replaying the program's
binary64 arithmetic on exactly these weights, the three confidences
sum to (2^54 - 1)/2^54 as stored values and to (2^53 - 1)/2^53 when
summed in floats — in neither sense exactly 1. -/
theorem float_confidences_sum_counterexample :
    scoreT "money fund upcoming" = 7/10
    ∧ scoreG "money fund upcoming" = 1
    ∧ scoreR "money fund upcoming" = 1
    ∧ 0 < totalScore "money fund upcoming"
    ∧ confT_f + confG_f + confR_f ≠ 1
    ∧ confSum_f ≠ 1 := by
  have ht : scoreT "money fund upcoming" = 7/10 := by
    simp +decide only [scoreT, intentScore, TRANSACTIONS_KEYWORDS, List.foldl]
    norm_num
  have hg : scoreG "money fund upcoming" = 1 := by
    simp +decide only [scoreG, intentScore, GOALS_KEYWORDS, List.foldl]
    norm_num
  have hr : scoreR "money fund upcoming" = 1 := by
    simp +decide only [scoreR, intentScore, REMINDERS_KEYWORDS, List.foldl]
    norm_num
  refine ⟨ht, hg, hr, ?_, ?_, ?_⟩
  · unfold totalScore
    rw [ht, hg, hr]
    norm_num
  · rw [confT_f_eq, confG_f_eq, confR_f_eq]
    norm_num
  · rw [confSum_f_eq]
    norm_num

end IntentClassifier
